import Mathlib

/-!
Verification of the `asm_console` instruction simulators.

The repository implements two line-oriented toy assembly simulators,
`ARM64Simulator` (src/assembler.js) and `X86Simulator` (src/x86_assembler.js).
Both carry register values as JavaScript `BigInt`s (arbitrary-precision signed
integers, modelled here as `Int`), a small record of boolean flags, an output
trace (a list of strings that is joined with newlines at the end of a run) and
a set of modified register names.

The embedding below follows the JavaScript sources line by line.  String
processing (trim, toUpperCase, split, startsWith, padStart, parseInt) is
modelled by explicit structurally-recursive functions over `List Char` so that
every definition evaluates inside the kernel.  JavaScript exceptions are
modelled with `Except String`; in both sources every `throw` inside an
instruction handler happens before the first mutation of the simulator, so a
handler that fails leaves the state unchanged, which is why handlers have type
`State → List String → Except String State`.
-/

/-! ## JavaScript string primitives -/

/-- The characters JavaScript treats as whitespace in `trim` and in the
token-splitting regular expression `[\s,]+` (ASCII part; the sources only ever
meet ASCII whitespace). -/
def jsIsSpace (c : Char) : Bool :=
  c = ' ' || c = '\t' || c = '\n' || c = '\r' || c = '\x0b' || c = '\x0c'

/-- Separator class of the operand-splitting regex `[\s,]+`. -/
def jsIsSep (c : Char) : Bool := jsIsSpace c || c = ','

/-- `String.prototype.toUpperCase` on the ASCII letters (the only characters
the sources ever case-convert: opcodes and register names). -/
def jsCharToUpper (c : Char) : Char :=
  if 'a' ≤ c ∧ c ≤ 'z' then Char.ofNat (c.toNat - 32) else c

def jsToUpper (s : String) : String := String.mk (s.data.map jsCharToUpper)

def trimLeftL (l : List Char) : List Char := l.dropWhile jsIsSpace

def trimRightL (l : List Char) : List Char := (l.reverse.dropWhile jsIsSpace).reverse

/-- `String.prototype.trim`. -/
def jsTrim (s : String) : String := String.mk (trimRightL (trimLeftL s.data))

/-- `String.prototype.startsWith`. -/
def jsStartsWith (s pre : String) : Bool := pre.data.isPrefixOf s.data

/-- Longest prefix of `l` that does not contain the pattern `pat`:
`s.split(pat)[0]` in JavaScript, used to cut off inline comments. -/
def takeBeforeL (pat : List Char) : List Char → List Char
  | [] => []
  | c :: cs => if pat.isPrefixOf (c :: cs) then [] else c :: takeBeforeL pat cs

def jsTakeBefore (s pat : String) : String := String.mk (takeBeforeL pat.data s.data)

/-- Split on a character predicate, keeping empty chunks
(`String.prototype.split` with a one-character-class regex would do the same
before the empty chunks are filtered away). -/
def splitPAux (p : Char → Bool) : List Char → List Char → List (List Char)
  | [], acc => [acc.reverse]
  | c :: cs, acc =>
    if p c then acc.reverse :: splitPAux p cs [] else splitPAux p cs (c :: acc)

/-- `instruction.split(/[\s,]+/).filter(p => p)`: whitespace/comma separated
tokens with the empty chunks dropped. -/
def jsSplitTokens (s : String) : List String :=
  ((splitPAux jsIsSep s.data []).filter (fun l => ¬ l.isEmpty)).map String.mk

/-- `code.split('\n')`. -/
def jsSplitLines (code : String) : List String :=
  (splitPAux (fun c => c = '\n') code.data []).map String.mk

/-- `array.join('\n')`. -/
def joinNL (l : List String) : String := String.intercalate "\n" l

/-- `String.prototype.padStart(n, c)`. -/
def jsPadStart (s : String) (n : Nat) (c : Char) : String :=
  String.mk (List.replicate (n - s.data.length) c ++ s.data)

/-- Remove the first occurrence of a character: `value.replace('#', '')`. -/
def removeFirstChar (x : Char) : List Char → List Char
  | [] => []
  | c :: cs => if c = x then cs else c :: removeFirstChar x cs

/-! ## JavaScript number primitives -/

/-- Decimal rendering of a `Nat` (JavaScript's default number-to-string). -/
def natDec (n : Nat) : String := String.mk (Nat.toDigits 10 n)

/-- Lower-case hexadecimal rendering of a `Nat`. -/
def natHex (n : Nat) : String := String.mk (Nat.toDigits 16 n)

/-- `BigInt.prototype.toString()` (decimal, with a leading minus sign for
negative values). -/
def jsBigIntDec (v : Int) : String :=
  if v < 0 then "-" ++ natDec v.natAbs else natDec v.toNat

/-- `BigInt.prototype.toString(16)` (lower-case hex digits, a leading minus
sign for negative values — not two's complement). -/
def jsBigIntHex (v : Int) : String :=
  if v < 0 then "-" ++ natHex v.natAbs else natHex v.toNat

def decDigitVal (c : Char) : Option Nat :=
  if '0' ≤ c ∧ c ≤ '9' then some (c.toNat - '0'.toNat) else none

def hexDigitVal (c : Char) : Option Nat :=
  if 'a' ≤ c ∧ c ≤ 'f' then some (c.toNat - 'a'.toNat + 10)
  else if 'A' ≤ c ∧ c ≤ 'F' then some (c.toNat - 'A'.toNat + 10)
  else decDigitVal c

def parseDigitsAux (dv : Char → Option Nat) (base : Nat) : List Char → Nat → Nat
  | [], acc => acc
  | c :: cs, acc =>
    match dv c with
    | some d => parseDigitsAux dv base cs (acc * base + d)
    | none => acc

/-- The longest leading run of digits, `none` when there is none
(`parseInt` stops at the first invalid character and yields `NaN` when no
digit was read at all). -/
def parseDigits (dv : Char → Option Nat) (base : Nat) : List Char → Option Nat
  | [] => none
  | c :: cs =>
    match dv c with
    | some d => some (parseDigitsAux dv base cs d)
    | none => none

def stripHexPrefix : List Char → List Char
  | '0' :: 'x' :: t => t
  | '0' :: 'X' :: t => t
  | l => l

/-- `parseInt(s, 10)` / `parseInt(s, 16)`: leading whitespace skipped, one
optional sign, for radix 16 an optional `0x`/`0X` prefix, then the longest
digit run; `none` models `NaN`.  (`parseInt` returns a double; the sources
feed the result to `BigInt(...)`, exact for the magnitudes that occur, so the
value is modelled as an exact integer.) -/
def jsParseInt (s : String) (hexMode : Bool) : Option Int :=
  let l := s.data.dropWhile jsIsSpace
  let signAndRest : Bool × List Char :=
    match l with
    | '-' :: t => (true, t)
    | '+' :: t => (false, t)
    | _ => (false, l)
  let l' := if hexMode then stripHexPrefix signAndRest.2 else signAndRest.2
  match parseDigits (if hexMode then hexDigitVal else decDigitVal) (if hexMode then 16 else 10) l' with
  | some n => some (if signAndRest.1 then -(n : Int) else (n : Int))
  | none => none

/-! ## JavaScript BigInt bitwise and shift operations

`BigInt` bitwise operators act on the infinite two's-complement
representation; `-(n+1)` has the bit pattern of the complement of `n`.
`nclear a b` clears in `a` every bit set in `b` (`a AND NOT b`), computed
through kernel-friendly `Nat` operations. -/

def nclear (a b : Nat) : Nat := a - Nat.land a b

def jsBigIntAnd : Int → Int → Int
  | .ofNat a, .ofNat b => .ofNat (Nat.land a b)
  | .ofNat a, .negSucc b => .ofNat (nclear a b)
  | .negSucc a, .ofNat b => .ofNat (nclear b a)
  | .negSucc a, .negSucc b => .negSucc (Nat.lor a b)

def jsBigIntOr : Int → Int → Int
  | .ofNat a, .ofNat b => .ofNat (Nat.lor a b)
  | .ofNat a, .negSucc b => .negSucc (nclear b a)
  | .negSucc a, .ofNat b => .negSucc (nclear a b)
  | .negSucc a, .negSucc b => .negSucc (Nat.land a b)

def jsBigIntXor : Int → Int → Int
  | .ofNat a, .ofNat b => .ofNat (Nat.xor a b)
  | .ofNat a, .negSucc b => .negSucc (Nat.xor a b)
  | .negSucc a, .ofNat b => .negSucc (Nat.xor a b)
  | .negSucc a, .negSucc b => .ofNat (Nat.xor a b)

/-- `a << b` on BigInts: a negative shift count shifts the other way
(`BigInt::leftShift` is `⌊a · 2^b⌋`). -/
def jsBigIntShl (a : Int) (b : Int) : Int :=
  if 0 ≤ b then a * (2 : Int) ^ b.toNat else Int.fdiv a ((2 : Int) ^ (-b).toNat)

/-- `a >> b` on BigInts (arithmetic shift). -/
def jsBigIntShr (a : Int) (b : Int) : Int := jsBigIntShl a (-b)

/-! ## Shared result types -/

/-- Result of executing one instruction line: `ok true` models the `'halt'`
return of a `RET`, `ok false` an ordinary line (including skipped blank and
comment lines), `err` a thrown-and-caught error message. -/
inductive StepRes where
  | ok (halt : Bool)
  | err (msg : String)
deriving DecidableEq

/-- The value of `execute(sourceText)` — `{ success, output, error }` — bundled
with the simulator object as it stands after the call (the JS caller reads
`getRegisterState()`/`getFlagsState()` from the same simulator afterwards). -/
structure ExecutionResult (σ : Type) where
  success : Bool
  output : String
  error : Option String
  simulator : σ
deriving DecidableEq

/-- Run outcome of the line loop inside `execute`. -/
inductive RunRes (σ : Type) where
  | done (s : σ)
  | failed (s : σ) (line : Nat) (msg : String)
deriving DecidableEq

/-- The simulator state after attempting a handler: on `throw` the JavaScript
simulator object is left exactly as it was (every `throw` in both sources
happens before the first mutation), so an erroring handler yields the input
state. -/
def afterStep {σ : Type} (s : σ) : Except String σ → σ
  | .ok t => t
  | .error _ => s

/-- One snapshot entry of `getRegisterState()`:
`{ value: ..., hex: ..., modified: ... }`. -/
structure RegEntry where
  value : String
  hex : String
  modified : Bool
deriving DecidableEq

/-- The snapshot entry both sources build for one register:
`value.toString()`, `'0x' + value.toString(16).padStart(16, '0').toUpperCase()`
and membership in `modifiedRegisters`. -/
def regEntry (v : Int) (isMod : Bool) : RegEntry :=
  { value := jsBigIntDec v
    hex := "0x" ++ jsToUpper (jsPadStart (jsBigIntHex v) 16 '0')
    modified := isMod }

/-! ## The ARM64-like simulator (src/assembler.js) -/

namespace ARM64Simulator

structure Flags where
  N : Bool
  Z : Bool
  C : Bool
  V : Bool
deriving DecidableEq

/-- The mutable fields of the simulator that the instruction set touches
(`pc` lives in the runner, `memory` is never read or written by any handler). -/
structure State where
  registers : List (String × Int)
  flags : Flags
  output : List String
  modifiedRegisters : List String
deriving DecidableEq

/-- Insertion order of `reset()`: `X0`–`X30`, then `SP` (set to the high
sentinel `0x7FFFFFF0n`), `LR`, `XZR`. -/
def initRegisters : List (String × Int) :=
  ((List.range 31).map (fun i => ("X" ++ natDec i, (0 : Int)))) ++
    [("SP", 0x7FFFFFF0), ("LR", 0), ("XZR", 0)]

/-- `reset()`. -/
def reset : State :=
  { registers := initRegisters
    flags := { N := false, Z := false, C := false, V := false }
    output := []
    modifiedRegisters := [] }

/-- Updating an existing key in a JavaScript object keeps its position. -/
def setValue : List (String × Int) → String → Int → List (String × Int)
  | [], _, _ => []
  | (k, w) :: rest, r, v =>
    if k = r then (k, v) :: rest else (k, w) :: setValue rest r v

/-- `this.modifiedRegisters.add(reg)` (a JS `Set`: only membership matters). -/
def addModified (l : List String) (r : String) : List String :=
  if l.contains r then l else l ++ [r]

/-- `parseImmediate(value)`: trim, drop the first `#`, then decimal or
`0x`-prefixed hexadecimal via `parseInt`; `BigInt(NaN)` throws. -/
def parseImmediate (value : String) : Except String Int :=
  let v := String.mk (removeFirstChar '#' (jsTrim value).data)
  let hexMode := jsStartsWith v "0x" || jsStartsWith v "0X"
  match jsParseInt v hexMode with
  | some n => .ok n
  | none => .error "Cannot convert NaN to a BigInt"

/-- `getRegister(reg)`. -/
def getRegister (s : State) (reg : String) : Except String Int :=
  let r := jsToUpper (jsTrim reg)
  if r = "XZR" ∨ r = "WZR" then .ok 0
  else
    match s.registers.lookup r with
    | some v => .ok v
    | none => .error ("Unbekanntes Register: " ++ r)

/-- `setRegister(reg, value)`. -/
def setRegister (s : State) (reg : String) (value : Int) : Except String State :=
  let r := jsToUpper (jsTrim reg)
  if r = "XZR" ∨ r = "WZR" then .ok s
  else if (s.registers.lookup r).isSome then
    .ok { s with registers := setValue s.registers r value
                 modifiedRegisters := addModified s.modifiedRegisters r }
  else .error ("Unbekanntes Register: " ++ r)

/-- `updateFlags(result, operand1, operand2)`: `Z` and `N` always; `C` and `V`
only when both operands are passed (`mask64 = (1n << 64n) - 1n`). -/
def updateFlags (f : Flags) (result : Int) (ops : Option (Int × Int)) : Flags :=
  let f' : Flags := { f with Z := decide (result = 0), N := decide (result < 0) }
  match ops with
  | none => f'
  | some (operand1, operand2) =>
    let mask64 : Int := 18446744073709551615
    let sign1 := decide (operand1 < 0)
    let sign2 := decide (operand2 < 0)
    let signR := decide (result < 0)
    { f' with C := decide (operand1 + operand2 > mask64)
              V := sign1 = sign2 && sign1 ≠ signR }

/-- The second source operand of the three-operand forms:
`src2.startsWith('#') ? this.parseImmediate(src2) : this.getRegister(src2)`. -/
def resolveOp2 (s : State) (src2 : String) : Except String Int :=
  if jsStartsWith src2 "#" then parseImmediate src2 else getRegister s src2

def executeMOV (s : State) (parts : List String) : Except String State :=
  if parts.length < 3 then .error "MOV benötigt Ziel und Quelle" else
  let dest := parts.getD 1 ""
  let src := parts.getD 2 ""
  match (if jsStartsWith src "#" then parseImmediate src else getRegister s src) with
  | .error e => .error e
  | .ok value =>
    match setRegister s dest value with
    | .error e => .error e
    | .ok s' =>
      .ok { s' with output := s'.output ++
            ["MOV " ++ dest ++ " ← " ++ jsBigIntDec value ++ " (0x" ++ jsBigIntHex value ++ ")"] }

def executeADD (s : State) (parts : List String) : Except String State :=
  if parts.length < 4 then .error "ADD benötigt Ziel, Operand1 und Operand2" else
  let dest := parts.getD 1 ""
  let src1 := parts.getD 2 ""
  let src2 := parts.getD 3 ""
  match getRegister s src1 with
  | .error e => .error e
  | .ok val1 =>
    match resolveOp2 s src2 with
    | .error e => .error e
    | .ok val2 =>
      let result := val1 + val2
      match setRegister s dest result with
      | .error e => .error e
      | .ok s' =>
        .ok { s' with output := s'.output ++
              ["ADD " ++ dest ++ " ← " ++ jsBigIntDec val1 ++ " + " ++ jsBigIntDec val2 ++
               " = " ++ jsBigIntDec result ++ " (0x" ++ jsBigIntHex result ++ ")"] }

def executeSUB (s : State) (parts : List String) : Except String State :=
  if parts.length < 4 then .error "SUB benötigt Ziel, Operand1 und Operand2" else
  let dest := parts.getD 1 ""
  let src1 := parts.getD 2 ""
  let src2 := parts.getD 3 ""
  match getRegister s src1 with
  | .error e => .error e
  | .ok val1 =>
    match resolveOp2 s src2 with
    | .error e => .error e
    | .ok val2 =>
      let result := val1 - val2
      match setRegister s dest result with
      | .error e => .error e
      | .ok s' =>
        .ok { s' with
              flags := updateFlags s'.flags result (some (val1, -val2))
              output := s'.output ++
              ["SUB " ++ dest ++ " ← " ++ jsBigIntDec val1 ++ " - " ++ jsBigIntDec val2 ++
               " = " ++ jsBigIntDec result ++ " (0x" ++ jsBigIntHex result ++ ")"] }

def executeMUL (s : State) (parts : List String) : Except String State :=
  if parts.length < 4 then .error "MUL benötigt Ziel, Operand1 und Operand2" else
  let dest := parts.getD 1 ""
  let src1 := parts.getD 2 ""
  let src2 := parts.getD 3 ""
  match getRegister s src1 with
  | .error e => .error e
  | .ok val1 =>
    match resolveOp2 s src2 with
    | .error e => .error e
    | .ok val2 =>
      let result := val1 * val2
      match setRegister s dest result with
      | .error e => .error e
      | .ok s' =>
        .ok { s' with output := s'.output ++
              ["MUL " ++ dest ++ " ← " ++ jsBigIntDec val1 ++ " × " ++ jsBigIntDec val2 ++
               " = " ++ jsBigIntDec result ++ " (0x" ++ jsBigIntHex result ++ ")"] }

def executeAND (s : State) (parts : List String) : Except String State :=
  if parts.length < 4 then .error "AND benötigt Ziel, Operand1 und Operand2" else
  let dest := parts.getD 1 ""
  let src1 := parts.getD 2 ""
  let src2 := parts.getD 3 ""
  match getRegister s src1 with
  | .error e => .error e
  | .ok val1 =>
    match resolveOp2 s src2 with
    | .error e => .error e
    | .ok val2 =>
      let result := jsBigIntAnd val1 val2
      match setRegister s dest result with
      | .error e => .error e
      | .ok s' =>
        .ok { s' with
              flags := updateFlags s'.flags result none
              output := s'.output ++
              ["AND " ++ dest ++ " ← " ++ jsBigIntDec val1 ++ " & " ++ jsBigIntDec val2 ++
               " = " ++ jsBigIntDec result ++ " (0x" ++ jsBigIntHex result ++ ")"] }

def executeORR (s : State) (parts : List String) : Except String State :=
  if parts.length < 4 then .error "ORR benötigt Ziel, Operand1 und Operand2" else
  let dest := parts.getD 1 ""
  let src1 := parts.getD 2 ""
  let src2 := parts.getD 3 ""
  match getRegister s src1 with
  | .error e => .error e
  | .ok val1 =>
    match resolveOp2 s src2 with
    | .error e => .error e
    | .ok val2 =>
      let result := jsBigIntOr val1 val2
      match setRegister s dest result with
      | .error e => .error e
      | .ok s' =>
        .ok { s' with
              flags := updateFlags s'.flags result none
              output := s'.output ++
              ["ORR " ++ dest ++ " ← " ++ jsBigIntDec val1 ++ " | " ++ jsBigIntDec val2 ++
               " = " ++ jsBigIntDec result ++ " (0x" ++ jsBigIntHex result ++ ")"] }

def executeEOR (s : State) (parts : List String) : Except String State :=
  if parts.length < 4 then .error "EOR benötigt Ziel, Operand1 und Operand2" else
  let dest := parts.getD 1 ""
  let src1 := parts.getD 2 ""
  let src2 := parts.getD 3 ""
  match getRegister s src1 with
  | .error e => .error e
  | .ok val1 =>
    match resolveOp2 s src2 with
    | .error e => .error e
    | .ok val2 =>
      let result := jsBigIntXor val1 val2
      match setRegister s dest result with
      | .error e => .error e
      | .ok s' =>
        .ok { s' with
              flags := updateFlags s'.flags result none
              output := s'.output ++
              ["EOR " ++ dest ++ " ← " ++ jsBigIntDec val1 ++ " ⊕ " ++ jsBigIntDec val2 ++
               " = " ++ jsBigIntDec result ++ " (0x" ++ jsBigIntHex result ++ ")"] }

/-- The source routes the shift amount through `Number(...)`/`BigInt(...)`
(exact for the magnitudes that occur); the value itself is resolved by the
same immediate-or-register selection as the other second operands. -/
def executeLSL (s : State) (parts : List String) : Except String State :=
  if parts.length < 4 then .error "LSL benötigt Ziel, Operand1 und Shift-Wert" else
  let dest := parts.getD 1 ""
  let src1 := parts.getD 2 ""
  let src2 := parts.getD 3 ""
  match getRegister s src1 with
  | .error e => .error e
  | .ok val1 =>
    match resolveOp2 s src2 with
    | .error e => .error e
    | .ok shift =>
      let result := jsBigIntShl val1 shift
      match setRegister s dest result with
      | .error e => .error e
      | .ok s' =>
        .ok { s' with output := s'.output ++
              ["LSL " ++ dest ++ " ← " ++ jsBigIntDec val1 ++ " << " ++ jsBigIntDec shift ++
               " = " ++ jsBigIntDec result ++ " (0x" ++ jsBigIntHex result ++ ")"] }

def executeLSR (s : State) (parts : List String) : Except String State :=
  if parts.length < 4 then .error "LSR benötigt Ziel, Operand1 und Shift-Wert" else
  let dest := parts.getD 1 ""
  let src1 := parts.getD 2 ""
  let src2 := parts.getD 3 ""
  match getRegister s src1 with
  | .error e => .error e
  | .ok val1 =>
    match resolveOp2 s src2 with
    | .error e => .error e
    | .ok shift =>
      let result := jsBigIntShr val1 shift
      match setRegister s dest result with
      | .error e => .error e
      | .ok s' =>
        .ok { s' with output := s'.output ++
              ["LSR " ++ dest ++ " ← " ++ jsBigIntDec val1 ++ " >> " ++ jsBigIntDec shift ++
               " = " ++ jsBigIntDec result ++ " (0x" ++ jsBigIntHex result ++ ")"] }

def executeCMP (s : State) (parts : List String) : Except String State :=
  if parts.length < 3 then .error "CMP benötigt zwei Operanden" else
  let src1 := parts.getD 1 ""
  let src2 := parts.getD 2 ""
  match getRegister s src1 with
  | .error e => .error e
  | .ok val1 =>
    match resolveOp2 s src2 with
    | .error e => .error e
    | .ok val2 =>
      let result := val1 - val2
      let comparison :=
        if result = 0 then "gleich (==)"
        else if result > 0 then "größer (>)"
        else "kleiner (<)"
      .ok { s with
            flags := updateFlags s.flags result (some (val1, -val2))
            output := s.output ++
            ["CMP " ++ src1 ++ "(" ++ jsBigIntDec val1 ++ ") vs " ++ src2 ++
             "(" ++ jsBigIntDec val2 ++ "): " ++ comparison] }

/-- The skip / comment-stripping / tokenizing prefix of `executeInstruction`:
`none` models the early `return` for blank lines, full-line comments and lines
with no tokens; otherwise the stripped instruction text (used in error
wrapping), the upper-cased opcode and the token list. -/
def parseLine (instruction : String) : Option (String × String × List String) :=
  let ins := jsTrim instruction
  if ins.data.isEmpty || jsStartsWith ins "//" || jsStartsWith ins ";" then none
  else
    let ins := jsTrim (jsTakeBefore (jsTakeBefore ins "//") ";")
    match jsSplitTokens ins with
    | [] => none
    | p0 :: rest => some (ins, jsToUpper p0, p0 :: rest)

/-- `catch (error) { throw new Error(...) }` around the opcode switch. -/
def wrapStep {σ : Type} (s : σ) (ins : String) : Except String σ → σ × StepRes
  | .ok s' => (s', .ok false)
  | .error e => (s, .err ("Fehler bei '" ++ ins ++ "': " ++ e))

/-- The opcode switch of `executeInstruction`. -/
def dispatch (s : State) (ins op : String) (parts : List String) : State × StepRes :=
  if op = "MOV" ∨ op = "MOVZ" then wrapStep s ins (executeMOV s parts)
  else if op = "ADD" then wrapStep s ins (executeADD s parts)
  else if op = "SUB" then wrapStep s ins (executeSUB s parts)
  else if op = "MUL" then wrapStep s ins (executeMUL s parts)
  else if op = "AND" then wrapStep s ins (executeAND s parts)
  else if op = "ORR" then wrapStep s ins (executeORR s parts)
  else if op = "EOR" then wrapStep s ins (executeEOR s parts)
  else if op = "LSL" then wrapStep s ins (executeLSL s parts)
  else if op = "LSR" then wrapStep s ins (executeLSR s parts)
  else if op = "CMP" then wrapStep s ins (executeCMP s parts)
  else if op = "NOP" then (s, .ok false)
  else if op = "RET" then
    ({ s with output := s.output ++ ["Programm beendet (RET)"] }, .ok true)
  else (s, .err ("Fehler bei '" ++ ins ++ "': Unbekannte Instruktion: " ++ op))

/-- `executeInstruction(instruction)`. -/
def executeInstruction (s : State) (instruction : String) : State × StepRes :=
  match parseLine instruction with
  | none => (s, .ok false)
  | some (ins, op, parts) => dispatch s ins op parts

/-- The line loop of `execute`: runs lines in order, breaking on `'halt'`,
stopping with the 0-based index of the first throwing line. -/
def runFrom (s : State) (i : Nat) : List String → RunRes State
  | [] => .done s
  | l :: ls =>
    match executeInstruction s l with
    | (s', .ok true) => .done s'
    | (s', .ok false) => runFrom s' (i + 1) ls
    | (s', .err m) => .failed s' i m

/-- State at the top of `execute`, after `reset()` and the start banner. -/
def startState : State := { reset with output := ["=== Programm Start ===\n"] }

/-- `execute` after the input has been split into lines. -/
def executeLines (lines : List String) : ExecutionResult State :=
  match runFrom startState 0 lines with
  | .done s =>
    let s := { s with output := s.output ++ ["\n=== Programm erfolgreich beendet ==="] }
    { success := true, output := joinNL s.output, error := none, simulator := s }
  | .failed s i m =>
    let s := { s with output := s.output ++ ["\n❌ FEHLER in Zeile " ++ natDec (i + 1) ++ ": " ++ m] }
    { success := false, output := joinNL s.output, error := some m, simulator := s }

/-- `execute(code)`. -/
def execute (code : String) : ExecutionResult State :=
  executeLines (jsSplitLines code)

/-- Runs a list of lines to completion only when no line halts or throws:
`some` of the resulting state exactly when each line steps with `ok false`. -/
def runAll : State → List String → Option State
  | s, [] => some s
  | s, l :: ls =>
    match executeInstruction s l with
    | (s', .ok false) => runAll s' ls
    | _ => none

/-- `getRegisterState()`: every register except `XZR`, in insertion order. -/
def getRegisterState (s : State) : List (String × RegEntry) :=
  s.registers.filterMap (fun p =>
    if p.1 = "XZR" then none
    else some (p.1, regEntry p.2 (s.modifiedRegisters.contains p.1)))

/-- `getFlagsState()`. -/
def getFlagsState (s : State) : Flags := s.flags

end ARM64Simulator

/-! ## The x86-64-like simulator (src/x86_assembler.js) -/

namespace X86Simulator

structure Flags where
  CF : Bool
  PF : Bool
  ZF : Bool
  SF : Bool
  OF : Bool
deriving DecidableEq

structure State where
  registers : List (String × Int)
  flags : Flags
  output : List String
  modifiedRegisters : List String
deriving DecidableEq

/-- Insertion order of `reset()` (`RSP` gets the high sentinel). -/
def initRegisters : List (String × Int) :=
  [("RAX", 0), ("RBX", 0), ("RCX", 0), ("RDX", 0), ("RSI", 0), ("RDI", 0),
   ("RBP", 0), ("RSP", 0x7FFFFFF0), ("R8", 0), ("R9", 0), ("R10", 0),
   ("R11", 0), ("R12", 0), ("R13", 0), ("R14", 0), ("R15", 0)]

/-- `reset()`. -/
def reset : State :=
  { registers := initRegisters
    flags := { CF := false, PF := false, ZF := false, SF := false, OF := false }
    output := []
    modifiedRegisters := [] }

/-- `parseImmediate(value)`: trim, then decimal or `0x`-prefixed hexadecimal
via `parseInt`; `BigInt(NaN)` throws. -/
def parseImmediate (value : String) : Except String Int :=
  let v := jsTrim value
  let hexMode := jsStartsWith v "0x" || jsStartsWith v "0X"
  match jsParseInt v hexMode with
  | some n => .ok n
  | none => .error "Cannot convert NaN to a BigInt"

/-- `getRegister(reg)` (no zero register in this variant). -/
def getRegister (s : State) (reg : String) : Except String Int :=
  let r := jsToUpper (jsTrim reg)
  match s.registers.lookup r with
  | some v => .ok v
  | none => .error ("Unbekanntes Register: " ++ r)

/-- `setRegister(reg, value)`. -/
def setRegister (s : State) (reg : String) (value : Int) : Except String State :=
  let r := jsToUpper (jsTrim reg)
  if (s.registers.lookup r).isSome then
    .ok { s with registers := ARM64Simulator.setValue s.registers r value
                 modifiedRegisters := ARM64Simulator.addModified s.modifiedRegisters r }
  else .error ("Unbekanntes Register: " ++ r)

/-- Population count of the low 8 bits (`result & 0xFFn`, then the loop over
the 8 bit positions). -/
def onesLow8 (result : Int) : Nat :=
  ((List.range 8).filter (fun i => Nat.testBit (jsBigIntAnd result 255).toNat i)).length

/-- `updateFlags(result, operand1, operand2)`: `ZF`, `SF` and `PF` always;
`CF` and `OF` only when both operands are passed. -/
def updateFlags (f : Flags) (result : Int) (ops : Option (Int × Int)) : Flags :=
  let f' : Flags := { f with ZF := decide (result = 0), SF := decide (result < 0),
                             PF := decide (onesLow8 result % 2 = 0) }
  match ops with
  | none => f'
  | some (operand1, operand2) =>
    let mask64 : Int := 18446744073709551615
    let sign1 := decide (operand1 < 0)
    let sign2 := decide (operand2 < 0)
    let signR := decide (result < 0)
    { f' with CF := decide (operand1 + operand2 > mask64)
              OF := sign1 = sign2 && sign1 ≠ signR }

/-- `try { getRegister(src) } catch { parseImmediate(src) }` — the operand
fallback every x86 handler uses: a token that is no known register name is
parsed as an immediate literal. -/
def resolveSrc (s : State) (src : String) : Except String Int :=
  match getRegister s src with
  | .ok v => .ok v
  | .error _ => parseImmediate src

/-- `parts.length > 3 ? parts[3] : parts[2]` — the source token of the
two-operand instructions, which silently skips `parts[2]` when a three-operand
form was written. -/
def srcToken (parts : List String) : String :=
  if parts.length > 3 then parts.getD 3 "" else parts.getD 2 ""

def executeMOV (s : State) (parts : List String) : Except String State :=
  if parts.length < 3 then .error "MOV benötigt Ziel und Quelle" else
  let dest := parts.getD 1 ""
  let src := parts.getD 2 ""
  match resolveSrc s src with
  | .error e => .error e
  | .ok value =>
    match setRegister s dest value with
    | .error e => .error e
    | .ok s' =>
      .ok { s' with output := s'.output ++
            ["MOV " ++ dest ++ " ← " ++ jsBigIntDec value ++ " (0x" ++ jsBigIntHex value ++ ")"] }

def executeADD (s : State) (parts : List String) : Except String State :=
  if parts.length < 3 then .error "ADD benötigt mindestens Ziel und Quelle" else
  let dest := parts.getD 1 ""
  let src := srcToken parts
  match getRegister s dest with
  | .error e => .error e
  | .ok val1 =>
    match resolveSrc s src with
    | .error e => .error e
    | .ok val2 =>
      let result := val1 + val2
      match setRegister s dest result with
      | .error e => .error e
      | .ok s' =>
        .ok { s' with
              flags := updateFlags s'.flags result (some (val1, val2))
              output := s'.output ++
              ["ADD " ++ dest ++ " ← " ++ jsBigIntDec val1 ++ " + " ++ jsBigIntDec val2 ++
               " = " ++ jsBigIntDec result ++ " (0x" ++ jsBigIntHex result ++ ")"] }

def executeSUB (s : State) (parts : List String) : Except String State :=
  if parts.length < 3 then .error "SUB benötigt mindestens Ziel und Quelle" else
  let dest := parts.getD 1 ""
  let src := srcToken parts
  match getRegister s dest with
  | .error e => .error e
  | .ok val1 =>
    match resolveSrc s src with
    | .error e => .error e
    | .ok val2 =>
      let result := val1 - val2
      match setRegister s dest result with
      | .error e => .error e
      | .ok s' =>
        .ok { s' with
              flags := updateFlags s'.flags result (some (val1, -val2))
              output := s'.output ++
              ["SUB " ++ dest ++ " ← " ++ jsBigIntDec val1 ++ " - " ++ jsBigIntDec val2 ++
               " = " ++ jsBigIntDec result ++ " (0x" ++ jsBigIntHex result ++ ")"] }

def executeMUL (s : State) (parts : List String) : Except String State :=
  if parts.length < 3 then .error "MUL benötigt mindestens Ziel und Quelle" else
  let dest := parts.getD 1 ""
  let src := srcToken parts
  match getRegister s dest with
  | .error e => .error e
  | .ok val1 =>
    match resolveSrc s src with
    | .error e => .error e
    | .ok val2 =>
      let result := val1 * val2
      match setRegister s dest result with
      | .error e => .error e
      | .ok s' =>
        .ok { s' with output := s'.output ++
              ["MUL " ++ dest ++ " ← " ++ jsBigIntDec val1 ++ " × " ++ jsBigIntDec val2 ++
               " = " ++ jsBigIntDec result ++ " (0x" ++ jsBigIntHex result ++ ")"] }

def executeAND (s : State) (parts : List String) : Except String State :=
  if parts.length < 3 then .error "AND benötigt mindestens Ziel und Quelle" else
  let dest := parts.getD 1 ""
  let src := srcToken parts
  match getRegister s dest with
  | .error e => .error e
  | .ok val1 =>
    match resolveSrc s src with
    | .error e => .error e
    | .ok val2 =>
      let result := jsBigIntAnd val1 val2
      match setRegister s dest result with
      | .error e => .error e
      | .ok s' =>
        .ok { s' with
              flags := updateFlags s'.flags result none
              output := s'.output ++
              ["AND " ++ dest ++ " ← " ++ jsBigIntDec val1 ++ " & " ++ jsBigIntDec val2 ++
               " = " ++ jsBigIntDec result ++ " (0x" ++ jsBigIntHex result ++ ")"] }

def executeOR (s : State) (parts : List String) : Except String State :=
  if parts.length < 3 then .error "OR benötigt mindestens Ziel und Quelle" else
  let dest := parts.getD 1 ""
  let src := srcToken parts
  match getRegister s dest with
  | .error e => .error e
  | .ok val1 =>
    match resolveSrc s src with
    | .error e => .error e
    | .ok val2 =>
      let result := jsBigIntOr val1 val2
      match setRegister s dest result with
      | .error e => .error e
      | .ok s' =>
        .ok { s' with
              flags := updateFlags s'.flags result none
              output := s'.output ++
              ["OR " ++ dest ++ " ← " ++ jsBigIntDec val1 ++ " | " ++ jsBigIntDec val2 ++
               " = " ++ jsBigIntDec result ++ " (0x" ++ jsBigIntHex result ++ ")"] }

def executeXOR (s : State) (parts : List String) : Except String State :=
  if parts.length < 3 then .error "XOR benötigt mindestens Ziel und Quelle" else
  let dest := parts.getD 1 ""
  let src := srcToken parts
  match getRegister s dest with
  | .error e => .error e
  | .ok val1 =>
    match resolveSrc s src with
    | .error e => .error e
    | .ok val2 =>
      let result := jsBigIntXor val1 val2
      match setRegister s dest result with
      | .error e => .error e
      | .ok s' =>
        .ok { s' with
              flags := updateFlags s'.flags result none
              output := s'.output ++
              ["XOR " ++ dest ++ " ← " ++ jsBigIntDec val1 ++ " ⊕ " ++ jsBigIntDec val2 ++
               " = " ++ jsBigIntDec result ++ " (0x" ++ jsBigIntHex result ++ ")"] }

/-- The source routes the shift amount through `Number(...)`/`BigInt(...)`
(exact for the magnitudes that occur); the value itself is resolved by the
same register-or-immediate fallback as the other source operands. -/
def executeSHL (s : State) (parts : List String) : Except String State :=
  if parts.length < 3 then .error "SHL benötigt Ziel und Shift-Wert" else
  let dest := parts.getD 1 ""
  let src := srcToken parts
  match getRegister s dest with
  | .error e => .error e
  | .ok val1 =>
    match resolveSrc s src with
    | .error e => .error e
    | .ok shift =>
      let result := jsBigIntShl val1 shift
      match setRegister s dest result with
      | .error e => .error e
      | .ok s' =>
        .ok { s' with output := s'.output ++
              ["SHL " ++ dest ++ " ← " ++ jsBigIntDec val1 ++ " << " ++ jsBigIntDec shift ++
               " = " ++ jsBigIntDec result ++ " (0x" ++ jsBigIntHex result ++ ")"] }

def executeSHR (s : State) (parts : List String) : Except String State :=
  if parts.length < 3 then .error "SHR benötigt Ziel und Shift-Wert" else
  let dest := parts.getD 1 ""
  let src := srcToken parts
  match getRegister s dest with
  | .error e => .error e
  | .ok val1 =>
    match resolveSrc s src with
    | .error e => .error e
    | .ok shift =>
      let result := jsBigIntShr val1 shift
      match setRegister s dest result with
      | .error e => .error e
      | .ok s' =>
        .ok { s' with output := s'.output ++
              ["SHR " ++ dest ++ " ← " ++ jsBigIntDec val1 ++ " >> " ++ jsBigIntDec shift ++
               " = " ++ jsBigIntDec result ++ " (0x" ++ jsBigIntHex result ++ ")"] }

def executeCMP (s : State) (parts : List String) : Except String State :=
  if parts.length < 3 then .error "CMP benötigt zwei Operanden" else
  let src1 := parts.getD 1 ""
  let src2 := parts.getD 2 ""
  match getRegister s src1 with
  | .error e => .error e
  | .ok val1 =>
    match resolveSrc s src2 with
    | .error e => .error e
    | .ok val2 =>
      let result := val1 - val2
      let comparison :=
        if result = 0 then "gleich (==)"
        else if result > 0 then "größer (>)"
        else "kleiner (<)"
      .ok { s with
            flags := updateFlags s.flags result (some (val1, -val2))
            output := s.output ++
            ["CMP " ++ src1 ++ "(" ++ jsBigIntDec val1 ++ ") vs " ++ src2 ++
             "(" ++ jsBigIntDec val2 ++ "): " ++ comparison] }

def executeINC (s : State) (parts : List String) : Except String State :=
  if parts.length < 2 then .error "INC benötigt ein Register" else
  let dest := parts.getD 1 ""
  match getRegister s dest with
  | .error e => .error e
  | .ok val =>
    let result := val + 1
    match setRegister s dest result with
    | .error e => .error e
    | .ok s' =>
      .ok { s' with
            flags := updateFlags s'.flags result none
            output := s'.output ++
            ["INC " ++ dest ++ " ← " ++ jsBigIntDec val ++ " + 1 = " ++
             jsBigIntDec result ++ " (0x" ++ jsBigIntHex result ++ ")"] }

def executeDEC (s : State) (parts : List String) : Except String State :=
  if parts.length < 2 then .error "DEC benötigt ein Register" else
  let dest := parts.getD 1 ""
  match getRegister s dest with
  | .error e => .error e
  | .ok val =>
    let result := val - 1
    match setRegister s dest result with
    | .error e => .error e
    | .ok s' =>
      .ok { s' with
            flags := updateFlags s'.flags result none
            output := s'.output ++
            ["DEC " ++ dest ++ " ← " ++ jsBigIntDec val ++ " - 1 = " ++
             jsBigIntDec result ++ " (0x" ++ jsBigIntHex result ++ ")"] }

/-- The skip / comment-stripping / tokenizing prefix of `executeInstruction`
(this variant strips `;` before `//`; the resulting prefix is the same). -/
def parseLine (instruction : String) : Option (String × String × List String) :=
  let ins := jsTrim instruction
  if ins.data.isEmpty || jsStartsWith ins ";" || jsStartsWith ins "//" then none
  else
    let ins := jsTrim (jsTakeBefore (jsTakeBefore ins ";") "//")
    match jsSplitTokens ins with
    | [] => none
    | p0 :: rest => some (ins, jsToUpper p0, p0 :: rest)

/-- The opcode switch of `executeInstruction` (`IMUL` and `MUL` share a
case). -/
def dispatch (s : State) (ins op : String) (parts : List String) : State × StepRes :=
  if op = "MOV" then ARM64Simulator.wrapStep s ins (executeMOV s parts)
  else if op = "ADD" then ARM64Simulator.wrapStep s ins (executeADD s parts)
  else if op = "SUB" then ARM64Simulator.wrapStep s ins (executeSUB s parts)
  else if op = "IMUL" ∨ op = "MUL" then ARM64Simulator.wrapStep s ins (executeMUL s parts)
  else if op = "AND" then ARM64Simulator.wrapStep s ins (executeAND s parts)
  else if op = "OR" then ARM64Simulator.wrapStep s ins (executeOR s parts)
  else if op = "XOR" then ARM64Simulator.wrapStep s ins (executeXOR s parts)
  else if op = "SHL" then ARM64Simulator.wrapStep s ins (executeSHL s parts)
  else if op = "SHR" then ARM64Simulator.wrapStep s ins (executeSHR s parts)
  else if op = "CMP" then ARM64Simulator.wrapStep s ins (executeCMP s parts)
  else if op = "INC" then ARM64Simulator.wrapStep s ins (executeINC s parts)
  else if op = "DEC" then ARM64Simulator.wrapStep s ins (executeDEC s parts)
  else if op = "NOP" then (s, .ok false)
  else if op = "RET" then
    ({ s with output := s.output ++ ["Programm beendet (RET)"] }, .ok true)
  else (s, .err ("Fehler bei '" ++ ins ++ "': Unbekannte Instruktion: " ++ op))

/-- `executeInstruction(instruction)`. -/
def executeInstruction (s : State) (instruction : String) : State × StepRes :=
  match parseLine instruction with
  | none => (s, .ok false)
  | some (ins, op, parts) => dispatch s ins op parts

/-- The line loop of `execute` (index `i` models `this.rip`). -/
def runFrom (s : State) (i : Nat) : List String → RunRes State
  | [] => .done s
  | l :: ls =>
    match executeInstruction s l with
    | (s', .ok true) => .done s'
    | (s', .ok false) => runFrom s' (i + 1) ls
    | (s', .err m) => .failed s' i m

/-- State at the top of `execute`, after `reset()` and the start banner. -/
def startState : State := { reset with output := ["=== Programm Start ===\n"] }

/-- `execute` after the input has been split into lines. -/
def executeLines (lines : List String) : ExecutionResult State :=
  match runFrom startState 0 lines with
  | .done s =>
    let s := { s with output := s.output ++ ["\n=== Programm erfolgreich beendet ==="] }
    { success := true, output := joinNL s.output, error := none, simulator := s }
  | .failed s i m =>
    let s := { s with output := s.output ++ ["\n❌ FEHLER in Zeile " ++ natDec (i + 1) ++ ": " ++ m] }
    { success := false, output := joinNL s.output, error := some m, simulator := s }

/-- `execute(code)`. -/
def execute (code : String) : ExecutionResult State :=
  executeLines (jsSplitLines code)

/-- `getRegisterState()`: every register, in insertion order. -/
def getRegisterState (s : State) : List (String × RegEntry) :=
  s.registers.map (fun p => (p.1, regEntry p.2 (s.modifiedRegisters.contains p.1)))

/-- `getFlagsState()`. -/
def getFlagsState (s : State) : Flags := s.flags

end X86Simulator

/-! ## Definitions used by the claim statements -/

def lowerHexChars : List Char := "0123456789abcdef".data

def upperHexChars : List Char := "0123456789ABCDEF".data

/-- The snapshot `hex` shape the spec promises: the text `0x` followed by
exactly 16 upper-case hexadecimal digits. -/
def hexFieldWellFormed (h : String) : Prop :=
  h.data.length = 18 ∧ h.data.take 2 = ['0', 'x'] ∧ ∀ c ∈ h.data.drop 2, c ∈ upperHexChars

/-- The carry predicate exactly as claim C1 words it: both operands
reinterpreted as unsigned 64-bit values, their sum compared against the
64-bit unsigned maximum.  (The sources instead compare the raw signed sum,
see `ARM64Simulator.updateFlags` / `X86Simulator.updateFlags`.) -/
def carryClaimUnsigned (operand1 operand2 : Int) : Bool :=
  decide (operand1 % 2 ^ 64 + operand2 % 2 ^ 64 > (2 : Int) ^ 64 - 1)

/-- A line whose parsed opcode is `RET` (the parse prefix is exactly the one
`ARM64Simulator.executeInstruction` applies before its switch). -/
def isRETLine (l : String) : Bool :=
  match ARM64Simulator.parseLine l with
  | some (_, op, _) => op == "RET"
  | none => false

/-- The fixed register-name list of a simulator state, in insertion order. -/
def armRegisterNames (s : ARM64Simulator.State) : List String :=
  s.registers.map Prod.fst

/-- The ARM64 simulator state after the first line of the C4 scenario
`"MOV X0, #1"` has executed. -/
def c4StateAfterMov : ARM64Simulator.State :=
  (ARM64Simulator.runAll ARM64Simulator.startState ["MOV X0, #1"]).getD ARM64Simulator.startState

/-- A reset ARM64 state with `C` and `V` forced on, to witness that bitwise
operations leave them alone. -/
def armFlagsOnState : ARM64Simulator.State :=
  { ARM64Simulator.reset with flags := { N := false, Z := false, C := true, V := true } }

/-- A reset x86 state with `CF` and `OF` forced on. -/
def x86FlagsOnState : X86Simulator.State :=
  { X86Simulator.reset with
    flags := { CF := true, PF := false, ZF := false, SF := false, OF := true } }

/-! ## Theorems -/

/-- C5: executing `"MOV X0, #42\nMOV X1, #8\nADD X2, X0, X1"` succeeds and the
register snapshot maps `X2` to value `"50"` and hex `"0x0000000000000032"`
(and marks it modified). -/
theorem C5_example_scenario :
    (ARM64Simulator.execute "MOV X0, #42\nMOV X1, #8\nADD X2, X0, X1").success = true ∧
    (ARM64Simulator.getRegisterState
        (ARM64Simulator.execute "MOV X0, #42\nMOV X1, #8\nADD X2, X0, X1").simulator).lookup "X2" =
      some { value := "50", hex := "0x0000000000000032", modified := true } :=
  ⟨rfl, rfl⟩

/-- C6: `CMP` mutates no register in either variant — whatever the state and
operand tokens, the registers and the modified set after the handler (which on
a thrown error leaves the simulator untouched) are exactly the ones before;
only flags and the trace may change. -/
theorem C6_cmp_never_mutates_registers :
    (∀ (s : ARM64Simulator.State) (parts : List String),
      (afterStep s (ARM64Simulator.executeCMP s parts)).registers = s.registers ∧
      (afterStep s (ARM64Simulator.executeCMP s parts)).modifiedRegisters = s.modifiedRegisters) ∧
    (∀ (s : X86Simulator.State) (parts : List String),
      (afterStep s (X86Simulator.executeCMP s parts)).registers = s.registers ∧
      (afterStep s (X86Simulator.executeCMP s parts)).modifiedRegisters = s.modifiedRegisters) := by
  constructor
  · intro s parts
    unfold ARM64Simulator.executeCMP
    split
    · exact ⟨rfl, rfl⟩
    · dsimp only
      cases ARM64Simulator.getRegister s (parts.getD 1 "") with
      | error e => exact ⟨rfl, rfl⟩
      | ok val1 =>
        cases ARM64Simulator.resolveOp2 s (parts.getD 2 "") with
        | error e => exact ⟨rfl, rfl⟩
        | ok val2 => exact ⟨rfl, rfl⟩
  · intro s parts
    unfold X86Simulator.executeCMP
    split
    · exact ⟨rfl, rfl⟩
    · dsimp only
      cases X86Simulator.getRegister s (parts.getD 1 "") with
      | error e => exact ⟨rfl, rfl⟩
      | ok val1 =>
        cases X86Simulator.resolveSrc s (parts.getD 2 "") with
        | error e => exact ⟨rfl, rfl⟩
        | ok val2 => exact ⟨rfl, rfl⟩

/-- C9: every two-operand x86 opcode, given a three-operand line, uses the
first token as destination and first source and the third token as second
source, ignoring the middle token; concretely,
`ADD RAX, RBX, RCX` sets `RAX ← RAX + RCX` (here `2 + 5 = 7`), leaves
`RBX = 100` as it was, and the run succeeds. -/
theorem C9_three_operand_form_ignores_second_token :
    (∀ (s : X86Simulator.State) (op0 d a b : String),
      X86Simulator.executeADD s [op0, d, a, b] = X86Simulator.executeADD s [op0, d, b] ∧
      X86Simulator.executeSUB s [op0, d, a, b] = X86Simulator.executeSUB s [op0, d, b] ∧
      X86Simulator.executeMUL s [op0, d, a, b] = X86Simulator.executeMUL s [op0, d, b] ∧
      X86Simulator.executeAND s [op0, d, a, b] = X86Simulator.executeAND s [op0, d, b] ∧
      X86Simulator.executeOR s [op0, d, a, b] = X86Simulator.executeOR s [op0, d, b] ∧
      X86Simulator.executeXOR s [op0, d, a, b] = X86Simulator.executeXOR s [op0, d, b] ∧
      X86Simulator.executeSHL s [op0, d, a, b] = X86Simulator.executeSHL s [op0, d, b] ∧
      X86Simulator.executeSHR s [op0, d, a, b] = X86Simulator.executeSHR s [op0, d, b]) ∧
    ((X86Simulator.execute "MOV RAX, 2\nMOV RBX, 100\nMOV RCX, 5\nADD RAX, RBX, RCX").success = true ∧
     (X86Simulator.execute "MOV RAX, 2\nMOV RBX, 100\nMOV RCX, 5\nADD RAX, RBX, RCX").simulator.registers.lookup "RAX" = some 7 ∧
     (X86Simulator.execute "MOV RAX, 2\nMOV RBX, 100\nMOV RCX, 5\nADD RAX, RBX, RCX").simulator.registers.lookup "RBX" = some 100) :=
  ⟨fun _ _ _ _ _ => ⟨rfl, rfl, rfl, rfl, rfl, rfl, rfl, rfl⟩, rfl, rfl, rfl⟩

/-- C1 counterexample: two carry-computing paths disagree with the claim.
After `"MOV RAX, 1\nSHL RAX, 63\nADD RAX, RAX\nINC RBX"` the `INC` (operands
`0` and `1`) leaves `CF = true` from the preceding `ADD`, while the claimed
unsigned check on `0` and `1` yields `false`; and after
`"MOV X0, #5\nSUB X1, X0, #1"` the code's raw-signed check `5 + (-1) > 2^64-1`
leaves `C = false`, while the claimed unsigned reinterpretation of the negated
operand yields `true`. -/
theorem C1_counterexample :
    ((X86Simulator.execute "MOV RAX, 1\nSHL RAX, 63\nADD RAX, RAX\nINC RBX").simulator.flags.CF = true ∧
      carryClaimUnsigned 0 1 = false) ∧
    ((ARM64Simulator.execute "MOV X0, #5\nSUB X1, X0, #1").simulator.flags.C = false ∧
      carryClaimUnsigned 5 (-1) = true) :=
  ⟨⟨rfl, rfl⟩, ⟨rfl, rfl⟩⟩

/-- C3 counterexample: `"FOO\nRET"` is a source text containing a `RET` line,
yet `execute` returns `success = false` (the unknown opcode on line 1 aborts
the run before the `RET` is ever reached). -/
theorem C3_counterexample :
    jsSplitLines "FOO\nRET" = ["FOO", "RET"] ∧ isRETLine "RET" = true ∧
    (ARM64Simulator.execute "FOO\nRET").success = false :=
  ⟨rfl, rfl, rfl⟩

/-- C8 counterexample: `"DEC RAX"` succeeds and leaves `RAX = -1`, whose
snapshot hex field is `"0x00000000000000-1"` — `padStart` pads the signed
rendering `"-1"`, so the field is not `0x` followed by 16 hex digits. -/
theorem C8_counterexample :
    (X86Simulator.execute "DEC RAX").success = true ∧
    (X86Simulator.getRegisterState (X86Simulator.execute "DEC RAX").simulator).lookup "RAX" =
      some { value := "-1", hex := "0x00000000000000-1", modified := true } ∧
    ¬ hexFieldWellFormed "0x00000000000000-1" :=
  ⟨rfl, rfl, by unfold hexFieldWellFormed; decide⟩

/-- Helper: a successful ARM64 `setRegister` changes neither flags nor
trace. -/
theorem armSetRegister_ok_frame (s : ARM64Simulator.State) (r : String) (v : Int)
    (s' : ARM64Simulator.State) (h : ARM64Simulator.setRegister s r v = .ok s') :
    s'.flags = s.flags ∧ s'.output = s.output := by
  unfold ARM64Simulator.setRegister at h
  dsimp only at h
  split at h
  · injection h with h'
    rw [← h']
    exact ⟨rfl, rfl⟩
  · split at h
    · injection h with h'
      rw [← h']
      exact ⟨rfl, rfl⟩
    · cases h

/-- Helper: a successful x86 `setRegister` changes neither flags nor trace. -/
theorem x86SetRegister_ok_frame (s : X86Simulator.State) (r : String) (v : Int)
    (s' : X86Simulator.State) (h : X86Simulator.setRegister s r v = .ok s') :
    s'.flags = s.flags ∧ s'.output = s.output := by
  unfold X86Simulator.setRegister at h
  dsimp only at h
  split at h
  · injection h with h'
    rw [← h']
    exact ⟨rfl, rfl⟩
  · cases h

/-- C2: each bitwise handler (`AND`/`ORR`/`EOR` on the ARM64-like variant,
`AND`/`OR`/`XOR` on the x86-like variant) recomputes only Zero and
Negative/Sign (plus Parity on x86) from its result and leaves the Carry and
Overflow flags exactly as they were in the incoming state. -/
theorem C2_bitwise_ops_preserve_carry_overflow :
    (∀ (s : ARM64Simulator.State) (op0 d a b : String) (s' : ARM64Simulator.State) (v1 v2 : Int),
      ARM64Simulator.getRegister s a = .ok v1 →
      ARM64Simulator.resolveOp2 s b = .ok v2 →
      ARM64Simulator.executeAND s [op0, d, a, b] = .ok s' →
      s'.flags.C = s.flags.C ∧ s'.flags.V = s.flags.V ∧
      s'.flags.Z = decide (jsBigIntAnd v1 v2 = 0) ∧
      s'.flags.N = decide (jsBigIntAnd v1 v2 < 0)) ∧
    (∀ (s : ARM64Simulator.State) (op0 d a b : String) (s' : ARM64Simulator.State) (v1 v2 : Int),
      ARM64Simulator.getRegister s a = .ok v1 →
      ARM64Simulator.resolveOp2 s b = .ok v2 →
      ARM64Simulator.executeORR s [op0, d, a, b] = .ok s' →
      s'.flags.C = s.flags.C ∧ s'.flags.V = s.flags.V ∧
      s'.flags.Z = decide (jsBigIntOr v1 v2 = 0) ∧
      s'.flags.N = decide (jsBigIntOr v1 v2 < 0)) ∧
    (∀ (s : ARM64Simulator.State) (op0 d a b : String) (s' : ARM64Simulator.State) (v1 v2 : Int),
      ARM64Simulator.getRegister s a = .ok v1 →
      ARM64Simulator.resolveOp2 s b = .ok v2 →
      ARM64Simulator.executeEOR s [op0, d, a, b] = .ok s' →
      s'.flags.C = s.flags.C ∧ s'.flags.V = s.flags.V ∧
      s'.flags.Z = decide (jsBigIntXor v1 v2 = 0) ∧
      s'.flags.N = decide (jsBigIntXor v1 v2 < 0)) ∧
    (∀ (s : X86Simulator.State) (op0 d a : String) (s' : X86Simulator.State) (v1 v2 : Int),
      X86Simulator.getRegister s d = .ok v1 →
      X86Simulator.resolveSrc s a = .ok v2 →
      X86Simulator.executeAND s [op0, d, a] = .ok s' →
      s'.flags.CF = s.flags.CF ∧ s'.flags.OF = s.flags.OF ∧
      s'.flags.ZF = decide (jsBigIntAnd v1 v2 = 0) ∧
      s'.flags.SF = decide (jsBigIntAnd v1 v2 < 0) ∧
      s'.flags.PF = decide (X86Simulator.onesLow8 (jsBigIntAnd v1 v2) % 2 = 0)) ∧
    (∀ (s : X86Simulator.State) (op0 d a : String) (s' : X86Simulator.State) (v1 v2 : Int),
      X86Simulator.getRegister s d = .ok v1 →
      X86Simulator.resolveSrc s a = .ok v2 →
      X86Simulator.executeOR s [op0, d, a] = .ok s' →
      s'.flags.CF = s.flags.CF ∧ s'.flags.OF = s.flags.OF ∧
      s'.flags.ZF = decide (jsBigIntOr v1 v2 = 0) ∧
      s'.flags.SF = decide (jsBigIntOr v1 v2 < 0) ∧
      s'.flags.PF = decide (X86Simulator.onesLow8 (jsBigIntOr v1 v2) % 2 = 0)) ∧
    (∀ (s : X86Simulator.State) (op0 d a : String) (s' : X86Simulator.State) (v1 v2 : Int),
      X86Simulator.getRegister s d = .ok v1 →
      X86Simulator.resolveSrc s a = .ok v2 →
      X86Simulator.executeXOR s [op0, d, a] = .ok s' →
      s'.flags.CF = s.flags.CF ∧ s'.flags.OF = s.flags.OF ∧
      s'.flags.ZF = decide (jsBigIntXor v1 v2 = 0) ∧
      s'.flags.SF = decide (jsBigIntXor v1 v2 < 0) ∧
      s'.flags.PF = decide (X86Simulator.onesLow8 (jsBigIntXor v1 v2) % 2 = 0)) := by
  refine ⟨?_, ?_, ?_, ?_, ?_, ?_⟩
  · intro s op0 d a b s' v1 v2 h1 h2 h3
    unfold ARM64Simulator.executeAND at h3
    rw [if_neg (by simp)] at h3
    dsimp only [List.getD_cons_succ, List.getD_cons_zero] at h3
    rw [h1, h2] at h3
    dsimp only at h3
    cases hset : ARM64Simulator.setRegister s d (jsBigIntAnd v1 v2) with
    | error e => rw [hset] at h3; cases h3
    | ok s2 =>
      rw [hset] at h3
      injection h3 with h'
      obtain ⟨hf, _⟩ := armSetRegister_ok_frame s d (jsBigIntAnd v1 v2) s2 hset
      rw [← h']
      unfold ARM64Simulator.updateFlags
      dsimp only
      rw [hf]
      exact ⟨rfl, rfl, rfl, rfl⟩
  · intro s op0 d a b s' v1 v2 h1 h2 h3
    unfold ARM64Simulator.executeORR at h3
    rw [if_neg (by simp)] at h3
    dsimp only [List.getD_cons_succ, List.getD_cons_zero] at h3
    rw [h1, h2] at h3
    dsimp only at h3
    cases hset : ARM64Simulator.setRegister s d (jsBigIntOr v1 v2) with
    | error e => rw [hset] at h3; cases h3
    | ok s2 =>
      rw [hset] at h3
      injection h3 with h'
      obtain ⟨hf, _⟩ := armSetRegister_ok_frame s d (jsBigIntOr v1 v2) s2 hset
      rw [← h']
      unfold ARM64Simulator.updateFlags
      dsimp only
      rw [hf]
      exact ⟨rfl, rfl, rfl, rfl⟩
  · intro s op0 d a b s' v1 v2 h1 h2 h3
    unfold ARM64Simulator.executeEOR at h3
    rw [if_neg (by simp)] at h3
    dsimp only [List.getD_cons_succ, List.getD_cons_zero] at h3
    rw [h1, h2] at h3
    dsimp only at h3
    cases hset : ARM64Simulator.setRegister s d (jsBigIntXor v1 v2) with
    | error e => rw [hset] at h3; cases h3
    | ok s2 =>
      rw [hset] at h3
      injection h3 with h'
      obtain ⟨hf, _⟩ := armSetRegister_ok_frame s d (jsBigIntXor v1 v2) s2 hset
      rw [← h']
      unfold ARM64Simulator.updateFlags
      dsimp only
      rw [hf]
      exact ⟨rfl, rfl, rfl, rfl⟩
  · intro s op0 d a s' v1 v2 h1 h2 h3
    unfold X86Simulator.executeAND at h3
    rw [if_neg (by simp)] at h3
    unfold X86Simulator.srcToken at h3
    rw [if_neg (by simp)] at h3
    dsimp only [List.getD_cons_succ, List.getD_cons_zero] at h3
    rw [h1, h2] at h3
    dsimp only at h3
    cases hset : X86Simulator.setRegister s d (jsBigIntAnd v1 v2) with
    | error e => rw [hset] at h3; cases h3
    | ok s2 =>
      rw [hset] at h3
      injection h3 with h'
      obtain ⟨hf, _⟩ := x86SetRegister_ok_frame s d (jsBigIntAnd v1 v2) s2 hset
      rw [← h']
      unfold X86Simulator.updateFlags
      dsimp only
      rw [hf]
      exact ⟨rfl, rfl, rfl, rfl, rfl⟩
  · intro s op0 d a s' v1 v2 h1 h2 h3
    unfold X86Simulator.executeOR at h3
    rw [if_neg (by simp)] at h3
    unfold X86Simulator.srcToken at h3
    rw [if_neg (by simp)] at h3
    dsimp only [List.getD_cons_succ, List.getD_cons_zero] at h3
    rw [h1, h2] at h3
    dsimp only at h3
    cases hset : X86Simulator.setRegister s d (jsBigIntOr v1 v2) with
    | error e => rw [hset] at h3; cases h3
    | ok s2 =>
      rw [hset] at h3
      injection h3 with h'
      obtain ⟨hf, _⟩ := x86SetRegister_ok_frame s d (jsBigIntOr v1 v2) s2 hset
      rw [← h']
      unfold X86Simulator.updateFlags
      dsimp only
      rw [hf]
      exact ⟨rfl, rfl, rfl, rfl, rfl⟩
  · intro s op0 d a s' v1 v2 h1 h2 h3
    unfold X86Simulator.executeXOR at h3
    rw [if_neg (by simp)] at h3
    unfold X86Simulator.srcToken at h3
    rw [if_neg (by simp)] at h3
    dsimp only [List.getD_cons_succ, List.getD_cons_zero] at h3
    rw [h1, h2] at h3
    dsimp only at h3
    cases hset : X86Simulator.setRegister s d (jsBigIntXor v1 v2) with
    | error e => rw [hset] at h3; cases h3
    | ok s2 =>
      rw [hset] at h3
      injection h3 with h'
      obtain ⟨hf, _⟩ := x86SetRegister_ok_frame s d (jsBigIntXor v1 v2) s2 hset
      rw [← h']
      unfold X86Simulator.updateFlags
      dsimp only
      rw [hf]
      exact ⟨rfl, rfl, rfl, rfl, rfl⟩

/-- C2 witness: concrete applications — `AND X0, X1, X2` on a reset ARM64
state with `C = V = true`, and `XOR RAX, RBX` on a reset x86 state with
`CF = OF = true`; in both cases the carry/overflow flags survive. -/
theorem C2_bitwise_ops_preserve_carry_overflow_witness :
    ((afterStep armFlagsOnState (ARM64Simulator.executeAND armFlagsOnState ["AND", "X0", "X1", "X2"])).flags.C =
        armFlagsOnState.flags.C ∧
      (afterStep armFlagsOnState (ARM64Simulator.executeAND armFlagsOnState ["AND", "X0", "X1", "X2"])).flags.V =
        armFlagsOnState.flags.V ∧
      (afterStep armFlagsOnState (ARM64Simulator.executeAND armFlagsOnState ["AND", "X0", "X1", "X2"])).flags.Z =
        decide (jsBigIntAnd 0 0 = 0) ∧
      (afterStep armFlagsOnState (ARM64Simulator.executeAND armFlagsOnState ["AND", "X0", "X1", "X2"])).flags.N =
        decide (jsBigIntAnd 0 0 < 0)) ∧
    ((afterStep x86FlagsOnState (X86Simulator.executeXOR x86FlagsOnState ["XOR", "RAX", "RBX"])).flags.CF =
        x86FlagsOnState.flags.CF ∧
      (afterStep x86FlagsOnState (X86Simulator.executeXOR x86FlagsOnState ["XOR", "RAX", "RBX"])).flags.OF =
        x86FlagsOnState.flags.OF ∧
      (afterStep x86FlagsOnState (X86Simulator.executeXOR x86FlagsOnState ["XOR", "RAX", "RBX"])).flags.ZF =
        decide (jsBigIntXor 0 0 = 0) ∧
      (afterStep x86FlagsOnState (X86Simulator.executeXOR x86FlagsOnState ["XOR", "RAX", "RBX"])).flags.SF =
        decide (jsBigIntXor 0 0 < 0) ∧
      (afterStep x86FlagsOnState (X86Simulator.executeXOR x86FlagsOnState ["XOR", "RAX", "RBX"])).flags.PF =
        decide (X86Simulator.onesLow8 (jsBigIntXor 0 0) % 2 = 0)) :=
  ⟨C2_bitwise_ops_preserve_carry_overflow.1 armFlagsOnState "AND" "X0" "X1" "X2"
      (afterStep armFlagsOnState (ARM64Simulator.executeAND armFlagsOnState ["AND", "X0", "X1", "X2"]))
      0 0 rfl rfl rfl,
    (C2_bitwise_ops_preserve_carry_overflow.2.2.2.2.2) x86FlagsOnState "XOR" "RAX" "RBX"
      (afterStep x86FlagsOnState (X86Simulator.executeXOR x86FlagsOnState ["XOR", "RAX", "RBX"]))
      0 0 rfl rfl rfl⟩

/-- C1 (amended): carry is recomputed only by the x86 `ADD` handler and by the
`SUB`/`CMP` handlers of both variants, as the raw signed comparison
`operand1 + operand2 > 2^64 - 1` on the unreduced arbitrary-precision values
(subtraction feeding the negated second operand); the ARM64 `ADD` handler
touches no flag at all, and the x86 `INC`/`DEC` handlers leave Carry and
Overflow unchanged. -/
theorem C1_carry_flag_amended :
    (∀ (s : ARM64Simulator.State) (parts : List String),
      (afterStep s (ARM64Simulator.executeADD s parts)).flags = s.flags) ∧
    (∀ (s : X86Simulator.State) (parts : List String),
      (afterStep s (X86Simulator.executeINC s parts)).flags.CF = s.flags.CF ∧
      (afterStep s (X86Simulator.executeINC s parts)).flags.OF = s.flags.OF) ∧
    (∀ (s : X86Simulator.State) (parts : List String),
      (afterStep s (X86Simulator.executeDEC s parts)).flags.CF = s.flags.CF ∧
      (afterStep s (X86Simulator.executeDEC s parts)).flags.OF = s.flags.OF) ∧
    (∀ (s : X86Simulator.State) (op0 d a : String) (s' : X86Simulator.State) (v1 v2 : Int),
      X86Simulator.getRegister s d = .ok v1 →
      X86Simulator.resolveSrc s a = .ok v2 →
      X86Simulator.executeADD s [op0, d, a] = .ok s' →
      s'.flags.CF = decide (v1 + v2 > (2 : Int) ^ 64 - 1)) ∧
    (∀ (s : ARM64Simulator.State) (op0 d a b : String) (s' : ARM64Simulator.State) (v1 v2 : Int),
      ARM64Simulator.getRegister s a = .ok v1 →
      ARM64Simulator.resolveOp2 s b = .ok v2 →
      ARM64Simulator.executeSUB s [op0, d, a, b] = .ok s' →
      s'.flags.C = decide (v1 + -v2 > (2 : Int) ^ 64 - 1)) ∧
    (∀ (s : ARM64Simulator.State) (op0 a b : String) (s' : ARM64Simulator.State) (v1 v2 : Int),
      ARM64Simulator.getRegister s a = .ok v1 →
      ARM64Simulator.resolveOp2 s b = .ok v2 →
      ARM64Simulator.executeCMP s [op0, a, b] = .ok s' →
      s'.flags.C = decide (v1 + -v2 > (2 : Int) ^ 64 - 1)) ∧
    (∀ (s : X86Simulator.State) (op0 d a : String) (s' : X86Simulator.State) (v1 v2 : Int),
      X86Simulator.getRegister s d = .ok v1 →
      X86Simulator.resolveSrc s a = .ok v2 →
      X86Simulator.executeSUB s [op0, d, a] = .ok s' →
      s'.flags.CF = decide (v1 + -v2 > (2 : Int) ^ 64 - 1)) ∧
    (∀ (s : X86Simulator.State) (op0 a b : String) (s' : X86Simulator.State) (v1 v2 : Int),
      X86Simulator.getRegister s a = .ok v1 →
      X86Simulator.resolveSrc s b = .ok v2 →
      X86Simulator.executeCMP s [op0, a, b] = .ok s' →
      s'.flags.CF = decide (v1 + -v2 > (2 : Int) ^ 64 - 1)) := by
  refine ⟨?_, ?_, ?_, ?_, ?_, ?_, ?_, ?_⟩
  · intro s parts
    unfold ARM64Simulator.executeADD
    split
    · rfl
    · dsimp only
      cases ARM64Simulator.getRegister s (parts.getD 2 "") with
      | error e => rfl
      | ok val1 =>
        dsimp only
        cases ARM64Simulator.resolveOp2 s (parts.getD 3 "") with
        | error e => rfl
        | ok val2 =>
          dsimp only
          cases hset : ARM64Simulator.setRegister s (parts.getD 1 "") (val1 + val2) with
          | error e => rfl
          | ok s2 =>
            exact (armSetRegister_ok_frame s (parts.getD 1 "") (val1 + val2) s2 hset).1
  · intro s parts
    unfold X86Simulator.executeINC
    split
    · exact ⟨rfl, rfl⟩
    · dsimp only
      cases X86Simulator.getRegister s (parts.getD 1 "") with
      | error e => exact ⟨rfl, rfl⟩
      | ok val =>
        dsimp only
        cases hset : X86Simulator.setRegister s (parts.getD 1 "") (val + 1) with
        | error e => exact ⟨rfl, rfl⟩
        | ok s2 =>
          obtain ⟨hf, _⟩ := x86SetRegister_ok_frame s (parts.getD 1 "") (val + 1) s2 hset
          unfold X86Simulator.updateFlags
          dsimp only
          constructor
          · rw [hf]; exact rfl
          · rw [hf]; exact rfl
  · intro s parts
    unfold X86Simulator.executeDEC
    split
    · exact ⟨rfl, rfl⟩
    · dsimp only
      cases X86Simulator.getRegister s (parts.getD 1 "") with
      | error e => exact ⟨rfl, rfl⟩
      | ok val =>
        dsimp only
        cases hset : X86Simulator.setRegister s (parts.getD 1 "") (val - 1) with
        | error e => exact ⟨rfl, rfl⟩
        | ok s2 =>
          obtain ⟨hf, _⟩ := x86SetRegister_ok_frame s (parts.getD 1 "") (val - 1) s2 hset
          unfold X86Simulator.updateFlags
          dsimp only
          constructor
          · rw [hf]; exact rfl
          · rw [hf]; exact rfl
  · intro s op0 d a s' v1 v2 h1 h2 h3
    unfold X86Simulator.executeADD at h3
    rw [if_neg (by simp)] at h3
    unfold X86Simulator.srcToken at h3
    rw [if_neg (by simp)] at h3
    dsimp only [List.getD_cons_succ, List.getD_cons_zero] at h3
    rw [h1, h2] at h3
    dsimp only at h3
    cases hset : X86Simulator.setRegister s d (v1 + v2) with
    | error e => rw [hset] at h3; cases h3
    | ok s2 =>
      rw [hset] at h3
      injection h3 with h'
      rw [← h']
      unfold X86Simulator.updateFlags
      rfl
  · intro s op0 d a b s' v1 v2 h1 h2 h3
    unfold ARM64Simulator.executeSUB at h3
    rw [if_neg (by simp)] at h3
    dsimp only [List.getD_cons_succ, List.getD_cons_zero] at h3
    rw [h1, h2] at h3
    dsimp only at h3
    cases hset : ARM64Simulator.setRegister s d (v1 - v2) with
    | error e => rw [hset] at h3; cases h3
    | ok s2 =>
      rw [hset] at h3
      injection h3 with h'
      rw [← h']
      unfold ARM64Simulator.updateFlags
      rfl
  · intro s op0 a b s' v1 v2 h1 h2 h3
    unfold ARM64Simulator.executeCMP at h3
    rw [if_neg (by simp)] at h3
    dsimp only [List.getD_cons_succ, List.getD_cons_zero] at h3
    rw [h1, h2] at h3
    dsimp only at h3
    injection h3 with h'
    rw [← h']
    unfold ARM64Simulator.updateFlags
    rfl
  · intro s op0 d a s' v1 v2 h1 h2 h3
    unfold X86Simulator.executeSUB at h3
    rw [if_neg (by simp)] at h3
    unfold X86Simulator.srcToken at h3
    rw [if_neg (by simp)] at h3
    dsimp only [List.getD_cons_succ, List.getD_cons_zero] at h3
    rw [h1, h2] at h3
    dsimp only at h3
    cases hset : X86Simulator.setRegister s d (v1 - v2) with
    | error e => rw [hset] at h3; cases h3
    | ok s2 =>
      rw [hset] at h3
      injection h3 with h'
      rw [← h']
      unfold X86Simulator.updateFlags
      rfl
  · intro s op0 a b s' v1 v2 h1 h2 h3
    unfold X86Simulator.executeCMP at h3
    rw [if_neg (by simp)] at h3
    dsimp only [List.getD_cons_succ, List.getD_cons_zero] at h3
    rw [h1, h2] at h3
    dsimp only at h3
    injection h3 with h'
    rw [← h']
    unfold X86Simulator.updateFlags
    rfl

/-- C1 witness: `ADD RAX, RAX` on a reset x86 state recomputes
`CF = decide (0 + 0 > 2^64 - 1)`. -/
theorem C1_carry_flag_amended_witness :
    (afterStep X86Simulator.reset (X86Simulator.executeADD X86Simulator.reset ["ADD", "RAX", "RAX"])).flags.CF =
      decide ((0 : Int) + 0 > (2 : Int) ^ 64 - 1) :=
  (C1_carry_flag_amended.2.2.2.1) X86Simulator.reset "ADD" "RAX" "RAX"
    (afterStep X86Simulator.reset (X86Simulator.executeADD X86Simulator.reset ["ADD", "RAX", "RAX"]))
    0 0 rfl rfl rfl

/-- Helper: a prefix of lines that all execute normally shifts `runFrom` past
itself, advancing the line counter by its length. -/
theorem armRunAll_append (pre : List String) :
    ∀ (s s1 : ARM64Simulator.State) (i : Nat) (rest : List String),
      ARM64Simulator.runAll s pre = some s1 →
      ARM64Simulator.runFrom s i (pre ++ rest) = ARM64Simulator.runFrom s1 (i + pre.length) rest := by
  induction pre with
  | nil =>
    intro s s1 i rest h
    injection h with h'
    rw [h']
    rfl
  | cons l ls ih =>
    intro s s1 i rest h
    unfold ARM64Simulator.runAll at h
    rcases hstep : ARM64Simulator.executeInstruction s l with ⟨s', r⟩
    rw [hstep] at h
    match r, h with
    | .ok true, h => cases h
    | .err m, h => cases h
    | .ok false, h =>
      have hL : ARM64Simulator.runFrom s i ((l :: ls) ++ rest) =
          ARM64Simulator.runFrom s' (i + 1) (ls ++ rest) := by
        rw [List.cons_append]
        simp only [ARM64Simulator.runFrom]
        rw [hstep]
      rw [hL, ih s' s1 (i + 1) rest h]
      have harith : i + 1 + ls.length = i + (l :: ls).length := by
        simp only [List.length_cons]
        omega
      rw [harith]

/-- Helper: executing a `RET` line from any state appends the halt banner and
signals `'halt'`. -/
theorem armExecuteInstruction_ret (l : String) (hl : isRETLine l = true) (s : ARM64Simulator.State) :
    ARM64Simulator.executeInstruction s l =
      ({ s with output := s.output ++ ["Programm beendet (RET)"] }, .ok true) := by
  unfold isRETLine at hl
  unfold ARM64Simulator.executeInstruction
  cases hp : ARM64Simulator.parseLine l with
  | none => rw [hp] at hl; cases hl
  | some t =>
    rw [hp] at hl
    obtain ⟨ins, op, parts⟩ := t
    dsimp only at hl
    have hop : op = "RET" := by simpa using hl
    subst hop
    rfl

/-- C3 (amended): if execution reaches a `RET` line — every earlier line runs
normally (no halt, no error) — then the run stops there with `success = true`,
and the whole result (trace included) is the same as for the program truncated
right after that `RET`: no trailing line is executed or traced.  (As stated
the claim also promised `success = true` whenever the source merely contains a
`RET` line; an error on an earlier line falsifies that, see the
counterexample.) -/
theorem C3_ret_halts_amended :
    ∀ (pre suf : List String) (l : String) (s1 : ARM64Simulator.State),
      ARM64Simulator.runAll ARM64Simulator.startState pre = some s1 →
      isRETLine l = true →
      ARM64Simulator.executeLines (pre ++ l :: suf) = ARM64Simulator.executeLines (pre ++ [l]) ∧
      (ARM64Simulator.executeLines (pre ++ l :: suf)).success = true := by
  intro pre suf l s1 hpre hret
  have h1 := armRunAll_append pre ARM64Simulator.startState s1 0 (l :: suf) hpre
  have h2 := armRunAll_append pre ARM64Simulator.startState s1 0 [l] hpre
  unfold ARM64Simulator.executeLines
  rw [h1, h2]
  simp only [ARM64Simulator.runFrom]
  rw [armExecuteInstruction_ret l hret s1]
  exact ⟨rfl, rfl⟩

/-- C3 witness: the two-line program `RET` / `MOV X1, #2` runs exactly like
the one-line program `RET` and succeeds. -/
theorem C3_ret_halts_amended_witness :
    ARM64Simulator.executeLines ["RET", "MOV X1, #2"] = ARM64Simulator.executeLines ["RET"] ∧
    (ARM64Simulator.executeLines ["RET", "MOV X1, #2"]).success = true :=
  C3_ret_halts_amended [] ["MOV X1, #2"] "RET" ARM64Simulator.startState rfl rfl

/-- C4: when every line before `l` executes normally and `l` itself throws
(any §4.3 error: unknown opcode, arity, unknown register, malformed
immediate), the run returns `success = false` with the error in the `error`
field, the result equals that of the program truncated at the failing line (no
later line executes), and the last trace entry carries the 1-based line
number; concretely, `"MOV X0, #1\nFOO X0, X0"` fails by reporting line 2. -/
theorem C4_first_error_halts_and_reports_line :
    (∀ (pre suf : List String) (l : String) (s1 : ARM64Simulator.State) (msg : String),
      ARM64Simulator.runAll ARM64Simulator.startState pre = some s1 →
      (ARM64Simulator.executeInstruction s1 l).2 = .err msg →
      (ARM64Simulator.executeLines (pre ++ l :: suf)).success = false ∧
      (ARM64Simulator.executeLines (pre ++ l :: suf)).error = some msg ∧
      ARM64Simulator.executeLines (pre ++ l :: suf) = ARM64Simulator.executeLines (pre ++ [l]) ∧
      (ARM64Simulator.executeLines (pre ++ l :: suf)).simulator.output.getLast? =
        some ("\n❌ FEHLER in Zeile " ++ natDec (pre.length + 1) ++ ": " ++ msg)) ∧
    ((ARM64Simulator.execute "MOV X0, #1\nFOO X0, X0").success = false ∧
     (ARM64Simulator.execute "MOV X0, #1\nFOO X0, X0").error =
       some "Fehler bei 'FOO X0, X0': Unbekannte Instruktion: FOO" ∧
     (ARM64Simulator.execute "MOV X0, #1\nFOO X0, X0").simulator.output.getLast? =
       some "\n❌ FEHLER in Zeile 2: Fehler bei 'FOO X0, X0': Unbekannte Instruktion: FOO") := by
  constructor
  · intro pre suf l s1 msg hpre herr
    have h1 := armRunAll_append pre ARM64Simulator.startState s1 0 (l :: suf) hpre
    have h2 := armRunAll_append pre ARM64Simulator.startState s1 0 [l] hpre
    unfold ARM64Simulator.executeLines
    rw [h1, h2]
    simp only [ARM64Simulator.runFrom]
    rcases hstep : ARM64Simulator.executeInstruction s1 l with ⟨s2, r⟩
    rw [hstep] at herr
    dsimp only at herr
    subst herr
    dsimp only
    simp only [Nat.zero_add]
    refine ⟨trivial, trivial, trivial, ?_⟩
    dsimp only
    simp
  · exact ⟨rfl, rfl, rfl⟩

/-- C4 witness: the general statement applied to the claim's own scenario —
prefix `MOV X0, #1`, failing line `FOO X0, X0`, failure reported for
line 2. -/
theorem C4_first_error_halts_and_reports_line_witness :
    (ARM64Simulator.executeLines ["MOV X0, #1", "FOO X0, X0"]).success = false ∧
    (ARM64Simulator.executeLines ["MOV X0, #1", "FOO X0, X0"]).error =
      some "Fehler bei 'FOO X0, X0': Unbekannte Instruktion: FOO" ∧
    ARM64Simulator.executeLines ["MOV X0, #1", "FOO X0, X0"] =
      ARM64Simulator.executeLines ["MOV X0, #1", "FOO X0, X0"] ∧
    (ARM64Simulator.executeLines ["MOV X0, #1", "FOO X0, X0"]).simulator.output.getLast? =
      some "\n❌ FEHLER in Zeile 2: Fehler bei 'FOO X0, X0': Unbekannte Instruktion: FOO" :=
  C4_first_error_halts_and_reports_line.1 ["MOV X0, #1"] [] "FOO X0, X0" c4StateAfterMov
    "Fehler bei 'FOO X0, X0': Unbekannte Instruktion: FOO" rfl rfl

/-- Helper: dropping a prefix from `l ++ [c]` with `c` not dropped yields a
list whose reversal starts with `c`. -/
theorem dropWhile_append_singleton_rev (p : Char → Bool) (c : Char) (hc : ¬ p c = true) :
    ∀ l : List Char, ∃ w, (List.dropWhile p (l ++ [c])).reverse = c :: w := by
  intro l
  induction l with
  | nil =>
    refine ⟨[], ?_⟩
    rw [List.nil_append, List.dropWhile_cons_of_neg hc]
    rfl
  | cons a as ih =>
    rw [List.cons_append, List.dropWhile_cons]
    by_cases hp : p a = true
    · rw [if_pos hp]
      exact ih
    · rw [if_neg hp]
      refine ⟨as.reverse ++ [a], ?_⟩
      rw [List.reverse_cons, List.reverse_append]
      rfl

/-- Helper: `trim` keeps a leading `#`. -/
theorem trim_head_hash (x : String) (hx : x.data.head? = some '#') :
    ∃ w, (jsTrim x).data = '#' :: w := by
  obtain ⟨t, ht⟩ : ∃ t, x.data = '#' :: t := by
    cases hd : x.data with
    | nil => rw [hd] at hx; cases hx
    | cons c cs =>
      rw [hd] at hx
      injection hx with h
      exact ⟨cs, by rw [h]⟩
  unfold jsTrim trimLeftL trimRightL
  rw [ht, List.dropWhile_cons_of_neg (by decide), List.reverse_cons]
  obtain ⟨w, hw⟩ := dropWhile_append_singleton_rev jsIsSpace '#' (by decide) t.reverse
  exact ⟨w, hw⟩

/-- Helper: `trim().toUpperCase()` keeps a leading `#`. -/
theorem canon_head_hash (x : String) (hx : x.data.head? = some '#') :
    ∃ u, (jsToUpper (jsTrim x)).data = '#' :: u := by
  obtain ⟨w, hw⟩ := trim_head_hash x hx
  refine ⟨w.map jsCharToUpper, ?_⟩
  unfold jsToUpper
  rw [hw]
  rfl

/-- Helper: looking up a key that starts with `#` in a register file whose
names all start otherwise fails. -/
theorem lookup_none_of_head_hash {β : Type} (k : String) (hk : k.data.head? = some '#') :
    ∀ l : List (String × β), (∀ p ∈ l, p.1.data.head? ≠ some '#') → l.lookup k = none := by
  intro l
  induction l with
  | nil => intro; rfl
  | cons p ps ih =>
    intro hall
    obtain ⟨k', b⟩ := p
    have hne : (k == k') = false := by
      rw [beq_eq_false_iff_ne]
      intro h
      exact hall (k', b) (List.mem_cons_self _ _) (by rw [← h]; exact hk)
    simp only [List.lookup, hne]
    exact ih (fun q hq => hall q (List.mem_cons_of_mem _ hq))

/-- Helper: on any state with the fixed ARM64 register-name set, `getRegister`
of a `#`-prefixed token is an unknown-register error (the token is not `XZR`
or `WZR` and no register name starts with `#`). -/
theorem armGetRegister_immediate_error (s : ARM64Simulator.State)
    (hkeys : armRegisterNames s = armRegisterNames ARM64Simulator.reset)
    (imm : String) (himm : imm.data.head? = some '#') :
    ARM64Simulator.getRegister s imm =
      .error ("Unbekanntes Register: " ++ jsToUpper (jsTrim imm)) := by
  obtain ⟨u, hu⟩ := canon_head_hash imm himm
  have hch : (jsToUpper (jsTrim imm)).data.head? = some '#' := by rw [hu]; rfl
  have hne1 : ¬ (jsToUpper (jsTrim imm) = "XZR" ∨ jsToUpper (jsTrim imm) = "WZR") := by
    rintro (h | h) <;> (rw [h] at hch; exact absurd hch (by decide))
  have hall : ∀ p ∈ s.registers, p.1.data.head? ≠ some '#' := by
    intro p hp
    have hmem : p.1 ∈ armRegisterNames s := List.mem_map_of_mem Prod.fst hp
    rw [hkeys] at hmem
    have hforall : ∀ n ∈ armRegisterNames ARM64Simulator.reset, n.data.head? ≠ some '#' := by decide
    exact hforall p.1 hmem
  unfold ARM64Simulator.getRegister
  dsimp only
  rw [if_neg hne1, lookup_none_of_head_hash (jsToUpper (jsTrim imm)) hch s.registers hall]

/-- C10: in the ARM64-like variant every three-operand handler resolves its
first source operand only through `getRegister` — a `#`-immediate there (on
any state with the fixed register-name set) raises the unknown-register error,
and only the second source operand may be an immediate; concretely,
`ADD X0, #1, X1` makes the run fail with `Unbekanntes Register: #1`. -/
theorem C10_first_source_operand_never_immediate :
    (∀ (s : ARM64Simulator.State) (op0 d imm b : String),
      armRegisterNames s = armRegisterNames ARM64Simulator.reset →
      imm.data.head? = some '#' →
      ARM64Simulator.executeADD s [op0, d, imm, b] =
        .error ("Unbekanntes Register: " ++ jsToUpper (jsTrim imm)) ∧
      ARM64Simulator.executeSUB s [op0, d, imm, b] =
        .error ("Unbekanntes Register: " ++ jsToUpper (jsTrim imm)) ∧
      ARM64Simulator.executeMUL s [op0, d, imm, b] =
        .error ("Unbekanntes Register: " ++ jsToUpper (jsTrim imm)) ∧
      ARM64Simulator.executeAND s [op0, d, imm, b] =
        .error ("Unbekanntes Register: " ++ jsToUpper (jsTrim imm)) ∧
      ARM64Simulator.executeORR s [op0, d, imm, b] =
        .error ("Unbekanntes Register: " ++ jsToUpper (jsTrim imm)) ∧
      ARM64Simulator.executeEOR s [op0, d, imm, b] =
        .error ("Unbekanntes Register: " ++ jsToUpper (jsTrim imm)) ∧
      ARM64Simulator.executeLSL s [op0, d, imm, b] =
        .error ("Unbekanntes Register: " ++ jsToUpper (jsTrim imm)) ∧
      ARM64Simulator.executeLSR s [op0, d, imm, b] =
        .error ("Unbekanntes Register: " ++ jsToUpper (jsTrim imm))) ∧
    ((ARM64Simulator.execute "MOV X1, #3\nADD X0, #1, X1").success = false ∧
     (ARM64Simulator.execute "MOV X1, #3\nADD X0, #1, X1").error =
       some "Fehler bei 'ADD X0, #1, X1': Unbekanntes Register: #1") := by
  constructor
  · intro s op0 d imm b hkeys himm
    have herr := armGetRegister_immediate_error s hkeys imm himm
    refine ⟨?_, ?_, ?_, ?_, ?_, ?_, ?_, ?_⟩ <;>
      first
      | (unfold ARM64Simulator.executeADD
         rw [if_neg (by simp)]
         dsimp only [List.getD_cons_succ, List.getD_cons_zero]
         rw [herr])
      | (unfold ARM64Simulator.executeSUB
         rw [if_neg (by simp)]
         dsimp only [List.getD_cons_succ, List.getD_cons_zero]
         rw [herr])
      | (unfold ARM64Simulator.executeMUL
         rw [if_neg (by simp)]
         dsimp only [List.getD_cons_succ, List.getD_cons_zero]
         rw [herr])
      | (unfold ARM64Simulator.executeAND
         rw [if_neg (by simp)]
         dsimp only [List.getD_cons_succ, List.getD_cons_zero]
         rw [herr])
      | (unfold ARM64Simulator.executeORR
         rw [if_neg (by simp)]
         dsimp only [List.getD_cons_succ, List.getD_cons_zero]
         rw [herr])
      | (unfold ARM64Simulator.executeEOR
         rw [if_neg (by simp)]
         dsimp only [List.getD_cons_succ, List.getD_cons_zero]
         rw [herr])
      | (unfold ARM64Simulator.executeLSL
         rw [if_neg (by simp)]
         dsimp only [List.getD_cons_succ, List.getD_cons_zero]
         rw [herr])
      | (unfold ARM64Simulator.executeLSR
         rw [if_neg (by simp)]
         dsimp only [List.getD_cons_succ, List.getD_cons_zero]
         rw [herr])
  · exact ⟨rfl, rfl⟩

/-- C10 witness: `executeADD` on the reset state with `#1` as first source
operand fails with the unknown-register error. -/
theorem C10_first_source_operand_never_immediate_witness :
    ARM64Simulator.executeADD ARM64Simulator.reset ["ADD", "X0", "#1", "X1"] =
      .error "Unbekanntes Register: #1" :=
  (C10_first_source_operand_never_immediate.1 ARM64Simulator.reset "ADD" "X0" "#1" "X1" rfl rfl).1

/-- C7: the ARM64 zero register is an invariant of every operation — reading
`XZR`/`WZR` (any state, any spelling that canonicalizes to them) yields `0`,
writing them returns the state completely unchanged (no error, no new
modified-set entry), and `XZR` never appears as a key of
`getRegisterState()`. -/
theorem C7_zero_register_invariant :
    (∀ (s : ARM64Simulator.State) (r : String) (v : Int),
        jsToUpper (jsTrim r) = "XZR" ∨ jsToUpper (jsTrim r) = "WZR" →
        ARM64Simulator.getRegister s r = .ok 0 ∧
        ARM64Simulator.setRegister s r v = .ok s) ∧
    (∀ (s : ARM64Simulator.State) (p : String × RegEntry),
        p ∈ ARM64Simulator.getRegisterState s → p.1 ≠ "XZR") := by
  constructor
  · intro s r v h
    constructor
    · unfold ARM64Simulator.getRegister
      dsimp only
      rw [if_pos h]
    · unfold ARM64Simulator.setRegister
      dsimp only
      rw [if_pos h]
  · intro s p hp
    unfold ARM64Simulator.getRegisterState at hp
    rw [List.mem_filterMap] at hp
    obtain ⟨a, ha, hae⟩ := hp
    by_cases hx : a.1 = "XZR"
    · rw [if_pos hx] at hae
      exact absurd hae (by simp)
    · rw [if_neg hx] at hae
      injection hae with h2
      rw [← h2]
      exact hx

/-- C7 witness: reading `XZR` on the reset state yields 0, writing it returns
the state unchanged, and the `X0` snapshot entry's key is not `XZR`. -/
theorem C7_zero_register_invariant_witness :
    ARM64Simulator.getRegister ARM64Simulator.reset "XZR" = .ok 0 ∧
    ARM64Simulator.setRegister ARM64Simulator.reset "XZR" 5 = .ok ARM64Simulator.reset ∧
    ("X0", regEntry 0 false).1 ≠ "XZR" :=
  ⟨(C7_zero_register_invariant.1 ARM64Simulator.reset "XZR" 5 (Or.inl rfl)).1,
   (C7_zero_register_invariant.1 ARM64Simulator.reset "XZR" 5 (Or.inl rfl)).2,
   C7_zero_register_invariant.2 ARM64Simulator.reset ("X0", regEntry 0 false) (by decide)⟩

theorem digitChar_mem_lowerHex : ∀ k, k < 16 → Nat.digitChar k ∈ lowerHexChars := by decide

theorem upper_of_lowerHex : ∀ c ∈ lowerHexChars, jsCharToUpper c ∈ upperHexChars := by decide

/-- Helper: every character `toString(16)` produces is a lower-case hex
digit. -/
theorem toDigitsCore_mem_lowerHex :
    ∀ (fuel n : Nat) (acc : List Char), (∀ c ∈ acc, c ∈ lowerHexChars) →
      ∀ c ∈ Nat.toDigitsCore 16 fuel n acc, c ∈ lowerHexChars := by
  intro fuel
  induction fuel with
  | zero =>
    intro n acc hacc c hc
    exact hacc c hc
  | succ f ih =>
    intro n acc hacc c hc
    unfold Nat.toDigitsCore at hc
    dsimp only at hc
    split at hc
    · rw [List.mem_cons] at hc
      rcases hc with hc | hc
      · rw [hc]
        exact digitChar_mem_lowerHex _ (Nat.mod_lt _ (by norm_num))
      · exact hacc c hc
    · refine ih (n / 16) _ ?_ c hc
      intro c' hc'
      rw [List.mem_cons] at hc'
      rcases hc' with h | h
      · rw [h]
        exact digitChar_mem_lowerHex _ (Nat.mod_lt _ (by norm_num))
      · exact hacc c' h

/-- Helper: a number below `16^k` has at most `k` hex digits. -/
theorem toDigitsCore_length_le :
    ∀ (fuel n : Nat) (acc : List Char) (k : Nat), 0 < k → n < 16 ^ k →
      (Nat.toDigitsCore 16 fuel n acc).length ≤ acc.length + k := by
  intro fuel
  induction fuel with
  | zero =>
    intro n acc k hk hn
    exact Nat.le_add_right _ _
  | succ f ih =>
    intro n acc k hk hn
    unfold Nat.toDigitsCore
    dsimp only
    split
    · rw [List.length_cons]
      omega
    · rename_i hne
      have h16 : 16 ≤ n := by
        by_contra hlt
        push_neg at hlt
        exact hne (Nat.div_eq_of_lt hlt)
      have hk2 : 2 ≤ k := by
        by_contra hcon
        push_neg at hcon
        have hk1 : k = 1 := by omega
        subst hk1
        rw [pow_one] at hn
        omega
      have hdiv : n / 16 < 16 ^ (k - 1) := by
        rw [Nat.div_lt_iff_lt_mul (by norm_num : 0 < 16)]
        have hpow : 16 ^ (k - 1) * 16 = 16 ^ k := by
          rw [← pow_succ]
          congr 1
          omega
        rw [hpow]
        exact hn
      have hi := ih (n / 16) (Nat.digitChar (n % 16) :: acc) (k - 1) (by omega) hdiv
      rw [List.length_cons] at hi
      omega

/-- Helper: for a register value in `[0, 2^64)` the snapshot hex field is
`0x` plus exactly 16 upper-case hex digits. -/
theorem regEntry_hex_wellFormed (v : Int) (m : Bool) (h0 : 0 ≤ v) (h1 : v < (2 : Int) ^ 64) :
    hexFieldWellFormed (regEntry v m).hex := by
  have hvn : v.toNat < 16 ^ 16 := by
    have h1' : v < 18446744073709551616 := by norm_num at h1; exact h1
    have hp : (16 : Nat) ^ 16 = 18446744073709551616 := by norm_num
    rw [hp]
    omega
  have hlen : (Nat.toDigits 16 v.toNat).length ≤ 16 := by
    have := toDigitsCore_length_le (v.toNat + 1) v.toNat [] 16 (by norm_num) hvn
    simpa using this
  have hmem : ∀ c ∈ Nat.toDigits 16 v.toNat, c ∈ lowerHexChars :=
    toDigitsCore_mem_lowerHex (v.toNat + 1) v.toNat [] (by intro c hc; cases hc)
  have hdata : (regEntry v m).hex.data =
      '0' :: 'x' ::
        ((List.replicate (16 - (Nat.toDigits 16 v.toNat).length) '0' ++
          Nat.toDigits 16 v.toNat).map jsCharToUpper) := by
    unfold regEntry jsPadStart jsToUpper jsBigIntHex natHex
    rw [if_neg (not_lt.mpr h0)]
    rfl
  refine ⟨?_, ?_, ?_⟩
  · rw [hdata]
    simp only [List.length_cons, List.length_map, List.length_append, List.length_replicate]
    omega
  · rw [hdata]
    rfl
  · rw [hdata]
    intro c hc
    simp only [List.drop_succ_cons, List.drop_zero] at hc
    rw [List.mem_map] at hc
    obtain ⟨c', hc', rfl⟩ := hc
    rw [List.mem_append] at hc'
    rcases hc' with h | h
    · rw [List.eq_of_mem_replicate h]
      decide
    · exact upper_of_lowerHex c' (hmem c' h)

/-- C8 (amended): every register of a state (except `XZR` on the ARM64-like
variant) appears in the `getRegisterState()` snapshot with `value` equal to
the register's decimal text; the `hex` field is `"0x"` followed by exactly 16
upper-case hex digits whenever the register's value lies in `[0, 2^64)` (for
values outside that range — reachable, since registers are unbounded — the
field deviates, see the counterexample). -/
theorem C8_snapshot_format_amended :
    (∀ (s : ARM64Simulator.State) (r : String) (v : Int),
      (r, v) ∈ s.registers → r ≠ "XZR" →
      (r, regEntry v (s.modifiedRegisters.contains r)) ∈ ARM64Simulator.getRegisterState s ∧
      (regEntry v (s.modifiedRegisters.contains r)).value = jsBigIntDec v ∧
      (0 ≤ v → v < (2 : Int) ^ 64 →
        hexFieldWellFormed (regEntry v (s.modifiedRegisters.contains r)).hex)) ∧
    (∀ (s : X86Simulator.State) (r : String) (v : Int),
      (r, v) ∈ s.registers →
      (r, regEntry v (s.modifiedRegisters.contains r)) ∈ X86Simulator.getRegisterState s ∧
      (regEntry v (s.modifiedRegisters.contains r)).value = jsBigIntDec v ∧
      (0 ≤ v → v < (2 : Int) ^ 64 →
        hexFieldWellFormed (regEntry v (s.modifiedRegisters.contains r)).hex)) := by
  constructor
  · intro s r v hmem hne
    refine ⟨?_, rfl, fun h0 h1 => regEntry_hex_wellFormed v _ h0 h1⟩
    unfold ARM64Simulator.getRegisterState
    rw [List.mem_filterMap]
    refine ⟨(r, v), hmem, ?_⟩
    dsimp only
    rw [if_neg hne]
  · intro s r v hmem
    refine ⟨?_, rfl, fun h0 h1 => regEntry_hex_wellFormed v _ h0 h1⟩
    unfold X86Simulator.getRegisterState
    rw [List.mem_map]
    exact ⟨(r, v), hmem, rfl⟩

/-- C8 witness: the `X0` entry of the reset ARM64 snapshot — present, decimal
value text, and a well-formed 16-digit hex field for the in-range value 0. -/
theorem C8_snapshot_format_amended_witness :
    ("X0", regEntry 0 (ARM64Simulator.reset.modifiedRegisters.contains "X0")) ∈
        ARM64Simulator.getRegisterState ARM64Simulator.reset ∧
    (regEntry 0 (ARM64Simulator.reset.modifiedRegisters.contains "X0")).value = jsBigIntDec 0 ∧
    hexFieldWellFormed (regEntry 0 (ARM64Simulator.reset.modifiedRegisters.contains "X0")).hex := by
  obtain ⟨h1, h2, h3⟩ :=
    C8_snapshot_format_amended.1 ARM64Simulator.reset "X0" 0 (by decide) (by decide)
  exact ⟨h1, h2, h3 (by decide) (by decide)⟩
